import Mathlib

/-!
Shallow embedding of the booking-resource scheduling core of the
Transport-service application (src/index.tsx).

The entity store (bookings, drivers, vehicle types) is modelled as an
explicit record; each React `setBookings`-style mutation becomes a pure
function from store to store.  JavaScript `Date` parsing of the string
`date + "T" + time` is modelled by an explicit parameter
`parse : String → Option ℤ` returning the epoch milliseconds, with `none`
standing for `NaN` (an unparseable date/time).  JavaScript numbers are
modelled as exact rationals, and `Math.round x` as `⌊x + 1/2⌋`.
-/

namespace TransportService

/-- Driver records carry a two-valued status (src/index.tsx, `Driver`). -/
inductive DriverStatus where
  | online
  | offline
deriving DecidableEq, Repr

/-- A booking's simulated trip status (src/index.tsx, `Booking.driverStatus`). -/
inductive TripStatus where
  | online
  | offline
  | arrived
deriving DecidableEq, Repr

/-- Booking lifecycle states (src/index.tsx, `Booking.bookingStatus`). -/
inductive BookingStatus where
  | confirmed
  | assigned
  | cancelled
deriving DecidableEq, Repr

/-- Payment states (src/index.tsx, `Booking.paymentStatus`). -/
inductive PaymentStatus where
  | pending
  | paid
deriving DecidableEq, Repr

/-- A vehicle (src/index.tsx, `interface Vehicle`). -/
structure Vehicle where
  plate : String
  model : String
deriving DecidableEq, Repr

/-- A vehicle-type bucket (src/index.tsx, `interface VehicleTypeDetails`). -/
structure VehicleTypeDetails where
  capacity : Nat
  vehicles : List Vehicle
deriving DecidableEq, Repr

/-- A driver record (src/index.tsx, `interface Driver`). -/
structure Driver where
  name : String
  phone : String
  username : String
  password : Option String := none
  status : DriverStatus
  position : Option (ℚ × ℚ) := none
  avatar : Option String := none
deriving DecidableEq, Repr

/-- A booking record (src/index.tsx, `interface Booking`).  Optional TS
fields become `Option`; `null` becomes `none`. -/
structure Booking where
  confirmationNumber : String
  confirmationMessage : String := ""
  estimatedFare : ℤ := 0
  estimatedTripDuration : String := ""
  estimatedArrivalTime : String := ""
  guestName : String := ""
  guestPhone : String := ""
  location : String := ""
  date : String
  time : String
  serviceType : String := ""
  vehicleType : String := ""
  driverName : Option String := none
  driverPhone : Option String := none
  assignedVehicle : Option Vehicle := none
  bookingStatus : BookingStatus := BookingStatus.confirmed
  driverStatus : Option TripStatus := none
  driverPosition : Option (ℚ × ℚ) := none
  paymentStatus : PaymentStatus := PaymentStatus.pending
  paymentId : Option String := none
  eta : Option String := none
deriving DecidableEq, Repr

/-- The entity store: the three React state arrays that hold the domain
data (`bookings`, `drivers`, `vehicleTypes` in `App`).  The TS record
`VehicleTypes` keeps insertion order of its keys, so it is modelled as an
association list. -/
structure Store where
  bookings : List Booking
  drivers : List Driver
  vehicleTypes : List (String × VehicleTypeDetails)
deriving DecidableEq, Repr

/-- `DURATION_MS` from `isTimeOverlapping`: 90 minutes in milliseconds. -/
def DURATION_MS : ℤ := 90 * 60 * 1000

/-- `isTimeOverlapping` (src/index.tsx lines 183-196), parameterised by the
JS date parser.  `parse` is applied to the combined string
`date ++ "T" ++ time`; `none` models `NaN`, on which the function
returns `false` (fail-open). -/
def isTimeOverlapping (parse : String → Option ℤ)
    (bookingA bookingB : Booking) : Bool :=
  match parse (bookingA.date ++ "T" ++ bookingA.time) with
  | none => false
  | some startA =>
    let endA := startA + DURATION_MS
    match parse (bookingB.date ++ "T" ++ bookingB.time) with
    | none => false
    | some startB =>
      let endB := startB + DURATION_MS
      decide (startA < endB ∧ endA > startB)

/-- `needle` is a prefix of `haystack` (character lists). -/
def hasPrefixChars : List Char → List Char → Bool
  | [], _ => true
  | _ :: _, [] => false
  | a :: as, b :: bs => (a = b) && hasPrefixChars as bs

/-- `needle` occurs contiguously inside `haystack` (character lists). -/
def hasSubChars (needle : List Char) : List Char → Bool
  | [] => hasPrefixChars needle []
  | b :: bs => hasPrefixChars needle (b :: bs) || hasSubChars needle bs

/-- JavaScript `s.includes(sub)`, on character lists. -/
def jsIncludes (s sub : List Char) : Bool :=
  hasSubChars sub s

/-- An ASCII whitespace character, the fragment of the characters
JavaScript `trim` strips that this development needs. -/
def isWsChar (c : Char) : Bool :=
  c = ' ' || c = '\t' || c = '\n' || c = '\r'

/-- JavaScript `s.trim()`: strip whitespace from both ends. -/
def jsTrim (l : List Char) : List Char :=
  ((l.dropWhile isWsChar).reverse.dropWhile isWsChar).reverse

/-- JavaScript `s.toLowerCase()` on the ASCII fragment, as a character
list. -/
def jsToLower (s : String) : List Char :=
  s.toList.map Char.toLower

/-- JavaScript `Math.round`: round half toward positive infinity. -/
def jsRound (q : ℚ) : ℤ := ⌊q + 1 / 2⌋

/-- `estimateFare` (src/index.tsx lines 268-304).  The component reads the
form state `location` and `selectedVehicleType`; both become arguments.
`location.toLowerCase().trim()` and substring tests are modelled on
character lists. -/
def estimateFare (location selectedVehicleType : String) : ℤ :=
  let GST_RATE : ℚ := 18 / 100
  let SUV_MULTIPLIER : ℚ := 3 / 2
  let FARE_AIRPORT : ℚ := 500
  let FARE_STATION : ℚ := 250
  let FARE_OTHER_ABOVE_5KM : ℚ := 500
  let normalizedLocation := jsTrim (jsToLower location)
  let baseFare : ℚ :=
    if jsIncludes normalizedLocation "airport".toList then FARE_AIRPORT
    else if jsIncludes normalizedLocation "jabalpur railway station".toList
        || jsIncludes normalizedLocation "madan mahal railway station".toList
        || jsIncludes normalizedLocation "jabalpur station".toList
        || jsIncludes normalizedLocation "madan mahal station".toList then FARE_STATION
    else FARE_OTHER_ABOVE_5KM
  let fareBeforeGst :=
    if selectedVehicleType = "SUV" then baseFare * SUV_MULTIPLIER else baseFare
  let finalFare := fareBeforeGst * (1 + GST_RATE)
  jsRound finalFare

/-- `calculateSimulatedETA` (src/index.tsx lines 567-576). -/
def calculateSimulatedETA (progress : ℚ) : String :=
  if progress ≥ 1 then "Arrived"
  else if progress > 95 / 100 then "Arriving now"
  else
    let totalMinutes : ℚ := 15
    let remainingMinutes := jsRound (totalMinutes * (1 - progress))
    if remainingMinutes ≤ 1 then "Less than a minute"
    else "approx. " ++ toString remainingMinutes ++ " mins"

/-- Map a driver's two-valued status into the booking's trip-status field;
`driver?.status || 'offline'` in the source (both `'online'` and
`'offline'` are truthy strings, so a resolved driver keeps their status). -/
def DriverStatus.toTripStatus : DriverStatus → TripStatus
  | DriverStatus.online => TripStatus.online
  | DriverStatus.offline => TripStatus.offline

/-- JavaScript `str || null`: the empty string is falsy. -/
def jsStrOrNone (s : String) : Option String :=
  if s = "" then none else some s

/-- Vehicle resolution in `handleAssignDriver` (src/index.tsx lines
444-447): find the first vehicle-type bucket containing the plate, then
the vehicle inside it. -/
def lookupVehicle (vehicleTypes : List (String × VehicleTypeDetails))
    (vehiclePlate : String) : Option Vehicle :=
  match vehicleTypes.find? (fun kv => kv.2.vehicles.any (fun v => decide (v.plate = vehiclePlate))) with
  | some kv => kv.2.vehicles.find? (fun v => decide (v.plate = vehiclePlate))
  | none => none

/-- The `setBookings(prev => prev.map(b => b.confirmationNumber === cn ?
upd(b) : b))` pattern shared by assignment, cancellation and payment. -/
def updateBooking (cn : String) (upd : Booking → Booking)
    (l : List Booking) : List Booking :=
  l.map (fun b => if b.confirmationNumber = cn then upd b else b)

/-- The record update `handleAssignDriver` writes into the matching
booking, given the resolved driver and vehicle. -/
def assignFields (driverName : String) (driver : Option Driver)
    (vehicle : Option Vehicle) (b : Booking) : Booking :=
  { b with driverName := some driverName,
           driverPhone := (match driver with
             | some d => jsStrOrNone d.phone
             | none => none),
           assignedVehicle := vehicle,
           driverStatus := some (match driver with
             | some d => d.status.toTripStatus
             | none => TripStatus.offline),
           bookingStatus := BookingStatus.assigned }

/-- `handleAssignDriver` (src/index.tsx lines 442-456): the unconditional
commit.  Resolves driver by name and vehicle by plate and rewrites the
matching booking; `driver?.phone || null` and `driver?.status || 'offline'`
are modelled by `jsStrOrNone` and `toTripStatus`. -/
def handleAssignDriver (s : Store)
    (bookingConfirmation driverName vehiclePlate : String) : Store :=
  let driver := s.drivers.find? (fun d => decide (d.name = driverName))
  let vehicle := lookupVehicle s.vehicleTypes vehiclePlate
  { s with bookings :=
      updateBooking bookingConfirmation (assignFields driverName driver vehicle) s.bookings }

/-- The record update cancellation writes into the matching booking. -/
def cancelFields (b : Booking) : Booking :=
  { b with bookingStatus := BookingStatus.cancelled,
           driverName := none,
           driverPhone := none,
           assignedVehicle := none,
           driverStatus := some TripStatus.offline }

/-- `handleCancelBooking` (src/index.tsx lines 458-482), restricted to the
entity store (the guest-view caches mirror the status change only). -/
def handleCancelBooking (s : Store) (confirmationNumber : String) : Store :=
  { s with bookings := updateBooking confirmationNumber cancelFields s.bookings }

/-- The per-booking update the Razorpay success handler applies
(src/index.tsx lines 521-525). -/
def updatePaymentStatus (paymentId : String) (b : Booking) : Booking :=
  { b with paymentStatus := PaymentStatus.paid, paymentId := some paymentId }

/-- The store mutation of the payment success handler inside
`handlePayment` (src/index.tsx lines 517-541): mark the booking paid and
record the payment id.  This is the `markPaid` operation of the spec. -/
def markPaid (s : Store) (confirmationNumber paymentId : String) : Store :=
  { s with bookings :=
      updateBooking confirmationNumber (updatePaymentStatus paymentId) s.bookings }

/-- The `selectedDriverDetails?.status === 'offline'` test of `handleSave`
(src/index.tsx lines 1281-1282). -/
def offlineSelected (s : Store) (assignmentDriver : String) : Bool :=
  match s.drivers.find? (fun d => decide (d.name = assignmentDriver)) with
  | some d => decide (d.status = DriverStatus.offline)
  | none => false

/-- The `driverIsBooked` check of `handleSave` (src/index.tsx lines
1289-1294). -/
def driverIsBooked (parse : String → Option ℤ) (s : Store) (booking : Booking)
    (assignmentDriver : String) : Bool :=
  s.bookings.any (fun b =>
    decide (b.confirmationNumber ≠ booking.confirmationNumber) &&
    decide (b.driverName = some assignmentDriver) &&
    decide (b.bookingStatus ≠ BookingStatus.cancelled) &&
    isTimeOverlapping parse booking b)

/-- The `vehicleIsBooked` check of `handleSave` (src/index.tsx lines
1302-1307); `b.assignedVehicle?.plate === assignment.vehicle` is the
optional-chaining test on the assigned vehicle's plate. -/
def vehicleIsBooked (parse : String → Option ℤ) (s : Store) (booking : Booking)
    (assignmentVehicle : String) : Bool :=
  s.bookings.any (fun b =>
    decide (b.confirmationNumber ≠ booking.confirmationNumber) &&
    (match b.assignedVehicle with
     | some v => decide (v.plate = assignmentVehicle)
     | none => false) &&
    decide (b.bookingStatus ≠ BookingStatus.cancelled) &&
    isTimeOverlapping parse booking b)

/-- `handleSave` (src/index.tsx lines 1273-1316): the validating `assign`
operation.  `booking` is the component's booking prop (an element of the
store's booking list); the selected driver name and vehicle plate are the
two strings (empty string models an empty selection, which is falsy).
Returns the store after the call together with the `assignmentError` set
on rejection (`none` on success). -/
def handleSave (parse : String → Option ℤ) (s : Store) (booking : Booking)
    (assignmentDriver assignmentVehicle : String) : Store × Option String :=
  if assignmentDriver = "" ∨ assignmentVehicle = "" then
    (s, some "Please select both a driver and a vehicle.")
  else if offlineSelected s assignmentDriver then
    (s, some ("Driver " ++ assignmentDriver ++ " is currently offline and cannot be assigned."))
  else if driverIsBooked parse s booking assignmentDriver then
    (s, some ("Driver " ++ assignmentDriver ++ " has an overlapping booking."))
  else if vehicleIsBooked parse s booking assignmentVehicle then
    (s, some ("Vehicle " ++ assignmentVehicle ++ " has an overlapping booking."))
  else
    (handleAssignDriver s booking.confirmationNumber assignmentDriver assignmentVehicle,
     none)

/-- Run a sequence of `assign` calls `(confirmationNumber, driverName,
vehiclePlate)`.  Each call resolves its target booking in the current
store (the component's `booking` prop) and must succeed; the run is
`none` if a target is missing or a call is rejected. -/
def runAssigns (parse : String → Option ℤ) :
    Store → List (String × String × String) → Option Store
  | s, [] => some s
  | s, (cn, dn, pl) :: rest =>
    match s.bookings.find? (fun b => decide (b.confirmationNumber = cn)) with
    | none => none
    | some bk =>
      match handleSave parse s bk dn pl with
      | (s1, none) => runAssigns parse s1 rest
      | (_, some _) => none

/-- Bookings `A` and `B` hold a common resource: the same (non-null)
driver name, or assigned vehicles with the same plate. -/
abbrev SharesResource (A B : Booking) : Prop :=
  (∃ d, A.driverName = some d ∧ B.driverName = some d) ∨
  (∃ va vb, A.assignedVehicle = some va ∧ B.assignedVehicle = some vb ∧ va.plate = vb.plate)

/-- The no-double-booking invariant: two bookings at distinct positions of
the booking list, both non-cancelled, sharing a driver or a vehicle plate,
never overlap. -/
def NoDoubleBooking (parse : String → Option ℤ) (s : Store) : Prop :=
  ∀ (i j : ℕ) (A B : Booking), i ≠ j →
    s.bookings[i]? = some A → s.bookings[j]? = some B →
    A.bookingStatus ≠ BookingStatus.cancelled →
    B.bookingStatus ≠ BookingStatus.cancelled →
    SharesResource A B →
    isTimeOverlapping parse A B = false

/-- A booking that holds no resources (fresh from creation). -/
abbrev Unassigned (b : Booking) : Prop :=
  b.driverName = none ∧ b.assignedVehicle = none

/-- The data-model invariant of §3 of the spec: one booking per
confirmation number. -/
abbrev UniqueConfirmations (s : Store) : Prop :=
  (s.bookings.map Booking.confirmationNumber).Nodup

/-! Concrete data for witnesses and counterexamples. -/

/-- A small concrete date parser: a lookup table from combined
`date ++ "T" ++ time` strings to epoch milliseconds, `none` elsewhere
(the `NaN` case of `new Date`). -/
def parseTable : String → Option ℤ := fun s =>
  if s = "2024-06-01T10:00" then some 1717236000000
  else if s = "2024-06-01T10:30" then some 1717237800000
  else if s = "2024-06-01T12:00" then some 1717243200000
  else none

/-- A fresh booking at 10:00. -/
def exBooking1 : Booking :=
  { confirmationNumber := "CONF01", date := "2024-06-01", time := "10:00" }

/-- A fresh booking at 10:30, within 90 minutes of `exBooking1`. -/
def exBooking2 : Booking :=
  { confirmationNumber := "CONF02", date := "2024-06-01", time := "10:30" }

/-- A fresh booking at 12:00, not overlapping `exBooking1`. -/
def exBooking3 : Booking :=
  { confirmationNumber := "CONF03", date := "2024-06-01", time := "12:00" }

/-- A booking whose date and time do not parse. -/
def exBookingBadDate : Booking :=
  { confirmationNumber := "CONFXX", date := "not-a-date", time := "99:99" }

/-- An online driver. -/
def exDriverRavi : Driver :=
  { name := "Ravi Kumar", phone := "9876543210", username := "ravi",
    status := DriverStatus.online }

/-- An offline driver. -/
def exDriverSunita : Driver :=
  { name := "Sunita Sharma", phone := "8765432109", username := "sunita",
    status := DriverStatus.offline }

/-- Two vehicle-type buckets with distinct plates. -/
def exVehicleTypes : List (String × VehicleTypeDetails) :=
  [("Standard Sedan",
    { capacity := 4,
      vehicles := [{ plate := "MP20TA7001", model := "Tata Tigor XM EV" },
                   { plate := "MP20TA7002", model := "Tata Tigor XM EV" }] }),
   ("SUV",
    { capacity := 6,
      vehicles := [{ plate := "MP20TA1969", model := "Toyota Innova" }] })]

/-- A store with three unassigned bookings and two drivers. -/
def exStore : Store :=
  { bookings := [exBooking1, exBooking2, exBooking3],
    drivers := [exDriverRavi, exDriverSunita],
    vehicleTypes := exVehicleTypes }

/-- A booking already paid, with a recorded payment id. -/
def exPaidBooking : Booking :=
  { confirmationNumber := "CONFPD", date := "2024-06-01", time := "10:00",
    paymentStatus := PaymentStatus.paid, paymentId := some "pay_OLD" }

/-- A store holding only the already-paid booking. -/
def exStorePaid : Store :=
  { bookings := [exPaidBooking], drivers := [], vehicleTypes := [] }

/-- The store expected after successfully assigning Ravi Kumar with
vehicle MP20TA7001 to both non-overlapping bookings CONF01 and CONF03. -/
def exStoreAssigned : Store :=
  { exStore with bookings :=
      [{ exBooking1 with driverName := some "Ravi Kumar",
                         driverPhone := some "9876543210",
                         assignedVehicle := some { plate := "MP20TA7001",
                                                   model := "Tata Tigor XM EV" },
                         driverStatus := some TripStatus.online,
                         bookingStatus := BookingStatus.assigned },
       exBooking2,
       { exBooking3 with driverName := some "Ravi Kumar",
                         driverPhone := some "9876543210",
                         assignedVehicle := some { plate := "MP20TA7001",
                                                   model := "Tata Tigor XM EV" },
                         driverStatus := some TripStatus.online,
                         bookingStatus := BookingStatus.assigned }] }

end TransportService

/-! Theorems. -/

namespace TransportService

/-- The overlap detector is symmetric. -/
theorem isTimeOverlapping_symm (parse : String → Option ℤ) (A B : Booking) :
    isTimeOverlapping parse A B = isTimeOverlapping parse B A := by
  rw [isTimeOverlapping, isTimeOverlapping]
  cases hA : parse (A.date ++ "T" ++ A.time) <;>
    cases hB : parse (B.date ++ "T" ++ B.time) <;> simp only []
  rw [decide_eq_decide]
  constructor <;> intro h <;> exact ⟨by omega, by omega⟩

theorem updateBooking_length (cn : String) (upd : Booking → Booking) (l : List Booking) :
    (updateBooking cn upd l).length = l.length :=
  List.length_map _ _

theorem updateBooking_get (cn : String) (upd : Booking → Booking) (l : List Booking)
    (i : Fin l.length) (hi : (i : ℕ) < (updateBooking cn upd l).length) :
    (updateBooking cn upd l).get ⟨i, hi⟩ =
      if (l.get i).confirmationNumber = cn then upd (l.get i) else l.get i := by
  simp [updateBooking, List.get_eq_getElem, List.getElem_map]

theorem updateBooking_id (cn : String) (upd : Booking → Booking) (l : List Booking)
    (h : ∀ b ∈ l, b.confirmationNumber ≠ cn) :
    updateBooking cn upd l = l :=
  calc updateBooking cn upd l
      = l.map id := List.map_congr_left (fun a ha => by rw [if_neg (h a ha)]; rfl)
    _ = l := List.map_id l

theorem updateBooking_getElem (cn : String) (upd : Booking → Booking) (l : List Booking)
    (i : ℕ) :
    (updateBooking cn upd l)[i]? =
      (l[i]?).map (fun b => if b.confirmationNumber = cn then upd b else b) := by
  simp [updateBooking, List.getElem?_map]

theorem updateBooking_mem (cn : String) (upd : Booking → Booking) (l : List Booking)
    (b : Booking) (hb : b ∈ updateBooking cn upd l) :
    ∃ a ∈ l, b = if a.confirmationNumber = cn then upd a else a := by
  rw [updateBooking] at hb
  simp only [List.mem_map] at hb
  obtain ⟨a, ha, h⟩ := hb
  exact ⟨a, ha, h.symm⟩

theorem plateMatches_eq_true (b : Booking) (pl : String) :
    ((match b.assignedVehicle with
      | some v => decide (v.plate = pl)
      | none => false) = true) ↔ ∃ v, b.assignedVehicle = some v ∧ v.plate = pl := by
  cases hv : b.assignedVehicle <;> simp [hv]

theorem driverIsBooked_eq_false_iff (parse : String → Option ℤ) (s : Store)
    (booking : Booking) (dn : String) :
    driverIsBooked parse s booking dn = false ↔
    ∀ b ∈ s.bookings, b.confirmationNumber ≠ booking.confirmationNumber →
      b.driverName = some dn → b.bookingStatus ≠ BookingStatus.cancelled →
      isTimeOverlapping parse booking b = false := by
  rw [driverIsBooked]
  simp only [List.any_eq_false, Bool.and_eq_true, decide_eq_true_eq, not_and,
    Bool.not_eq_true]
  constructor
  · intro h b hb h1 h2 h3
    exact h b hb ⟨⟨h1, h2⟩, h3⟩
  · intro h b hb h1
    exact h b hb h1.1.1 h1.1.2 h1.2

theorem vehicleIsBooked_eq_false_iff (parse : String → Option ℤ) (s : Store)
    (booking : Booking) (pl : String) :
    vehicleIsBooked parse s booking pl = false ↔
    ∀ b ∈ s.bookings, b.confirmationNumber ≠ booking.confirmationNumber →
      (∃ v, b.assignedVehicle = some v ∧ v.plate = pl) →
      b.bookingStatus ≠ BookingStatus.cancelled →
      isTimeOverlapping parse booking b = false := by
  rw [vehicleIsBooked]
  simp only [List.any_eq_false, Bool.and_eq_true, decide_eq_true_eq, not_and,
    Bool.not_eq_true]
  constructor
  · intro h b hb h1 h2 h3
    exact h b hb ⟨⟨h1, (plateMatches_eq_true b pl).mpr h2⟩, h3⟩
  · intro h b hb h1
    exact h b hb h1.1.1 ((plateMatches_eq_true b pl).mp h1.1.2) h1.2

theorem handleSave_rejects_or_commits (parse : String → Option ℤ) (s : Store)
    (booking : Booking) (dn pl : String) :
    ((handleSave parse s booking dn pl).2.isSome ∧
      (handleSave parse s booking dn pl).1 = s) ∨
    (handleSave parse s booking dn pl =
        (handleAssignDriver s booking.confirmationNumber dn pl, none) ∧
      driverIsBooked parse s booking dn = false ∧
      vehicleIsBooked parse s booking pl = false) := by
  rw [handleSave]
  by_cases h1 : dn = "" ∨ pl = ""
  · rw [if_pos h1]; exact Or.inl ⟨rfl, rfl⟩
  · rw [if_neg h1]
    by_cases h2 : offlineSelected s dn = true
    · rw [if_pos h2]; exact Or.inl ⟨rfl, rfl⟩
    · rw [if_neg h2]
      by_cases h3 : driverIsBooked parse s booking dn = true
      · rw [if_pos h3]; exact Or.inl ⟨rfl, rfl⟩
      · rw [if_neg h3]
        by_cases h4 : vehicleIsBooked parse s booking pl = true
        · rw [if_pos h4]; exact Or.inl ⟨rfl, rfl⟩
        · rw [if_neg h4]
          exact Or.inr ⟨rfl, by simpa using h3, by simpa using h4⟩

end TransportService

namespace TransportService

/-- C4: the overlap detector returns true iff the two half-open 90-minute
windows `[start, start + 90min)` intersect (`startA < endB` and
`endA > startB`), where each start is the parsed combined date-time;
whenever either booking's date-time fails to parse it returns false
rather than raising an error. -/
theorem overlap_iff_window_intersection (parse : String → Option ℤ) (A B : Booking) :
    (isTimeOverlapping parse A B = true ↔
      ∃ startA startB,
        parse (A.date ++ "T" ++ A.time) = some startA ∧
        parse (B.date ++ "T" ++ B.time) = some startB ∧
        startA < startB + 90 * 60 * 1000 ∧ startA + 90 * 60 * 1000 > startB) ∧
    ((parse (A.date ++ "T" ++ A.time) = none ∨ parse (B.date ++ "T" ++ B.time) = none) →
      isTimeOverlapping parse A B = false) := by
  constructor
  · rw [isTimeOverlapping]
    cases hA : parse (A.date ++ "T" ++ A.time) with
    | none => simp [hA]
    | some sA =>
      cases hB : parse (B.date ++ "T" ++ B.time) with
      | none => simp [hA, hB]
      | some sB => simp [hA, hB, DURATION_MS]
  · intro h
    rw [isTimeOverlapping]
    rcases h with h | h
    · rw [h]
    · cases hA : parse (A.date ++ "T" ++ A.time) with
      | none => rfl
      | some sA => rw [h]

/-- Witness for C4 at a concrete unparseable input. -/
theorem overlap_iff_window_intersection_witness :
    (parseTable (exBookingBadDate.date ++ "T" ++ exBookingBadDate.time) = none ∨
      parseTable (exBooking1.date ++ "T" ++ exBooking1.time) = none) ∧
    isTimeOverlapping parseTable exBookingBadDate exBooking1 = false :=
  ⟨Or.inl (by decide),
    (overlap_iff_window_intersection parseTable exBookingBadDate exBooking1).2
      (Or.inl (by decide))⟩

/-- C9: the simulated ETA string is "Arrived" when progress is at least 1,
"Arriving now" when progress lies strictly between 0.95 and 1, and
otherwise "approx. N mins" with `N = round(15 * (1 - progress))`,
collapsing to "Less than a minute" when `N ≤ 1`. -/
theorem calculateSimulatedETA_spec (p : ℚ) :
    (1 ≤ p → calculateSimulatedETA p = "Arrived") ∧
    (95 / 100 < p → p < 1 → calculateSimulatedETA p = "Arriving now") ∧
    (p ≤ 95 / 100 →
      calculateSimulatedETA p =
        if jsRound (15 * (1 - p)) ≤ 1 then "Less than a minute"
        else "approx. " ++ toString (jsRound (15 * (1 - p))) ++ " mins") := by
  refine ⟨fun h => ?_, fun h1 h2 => ?_, fun h => ?_⟩
  · rw [calculateSimulatedETA, if_pos h]
  · rw [calculateSimulatedETA, if_neg (not_le.mpr h2), if_pos h1]
  · rw [calculateSimulatedETA, if_neg, if_neg (not_lt.mpr h)]
    exact not_le.mpr (lt_of_le_of_lt h (by norm_num))

/-- Witness for C9 at progress 1. -/
theorem calculateSimulatedETA_spec_witness :
    calculateSimulatedETA 1 = "Arrived" :=
  (calculateSimulatedETA_spec 1).1 le_rfl

/-- C5: the fare estimate is `round(base * m * 1.18)` with the base chosen
by substring match on the trimmed lowercased location in priority order
(airport 500, then the fixed station phrases 250, else 500) and `m = 1.5`
exactly for the SUV type; the two quoted example fares hold, and the
function is deterministic. -/
theorem estimateFare_spec :
    (∀ location vehicleType,
      estimateFare location vehicleType =
        jsRound
          ((if jsIncludes (jsTrim (jsToLower location)) "airport".toList then (500 : ℚ)
            else if jsIncludes (jsTrim (jsToLower location)) "jabalpur railway station".toList
                || jsIncludes (jsTrim (jsToLower location)) "madan mahal railway station".toList
                || jsIncludes (jsTrim (jsToLower location)) "jabalpur station".toList
                || jsIncludes (jsTrim (jsToLower location)) "madan mahal station".toList then 250
            else 500) *
            (if vehicleType = "SUV" then 3 / 2 else 1) * (118 / 100))) ∧
    estimateFare "Jabalpur Airport" "Standard Sedan" = 590 ∧
    estimateFare "Jabalpur Airport" "SUV" = 885 ∧
    (∀ location vehicleType,
      estimateFare location vehicleType = estimateFare location vehicleType) := by
  refine ⟨fun location vehicleType => ?_, ?_, ?_, fun _ _ => rfl⟩
  · simp only [estimateFare]
    cases h1 : jsIncludes (jsTrim (jsToLower location)) "airport".toList <;>
      cases h2 : (jsIncludes (jsTrim (jsToLower location)) "jabalpur railway station".toList
          || jsIncludes (jsTrim (jsToLower location)) "madan mahal railway station".toList
          || jsIncludes (jsTrim (jsToLower location)) "jabalpur station".toList
          || jsIncludes (jsTrim (jsToLower location)) "madan mahal station".toList) <;>
      by_cases hv : vehicleType = "SUV" <;>
      simp only [h1, h2, hv, if_true, if_false, Bool.false_eq_true, ite_true, ite_false] <;>
      congr 1 <;> ring
  · have h : jsIncludes (jsTrim (jsToLower "Jabalpur Airport")) "airport".toList = true := by
      decide
    have hv : ("Standard Sedan" : String) ≠ "SUV" := by decide
    simp only [estimateFare, h, if_true, if_neg hv]
    norm_num [jsRound]
  · have h : jsIncludes (jsTrim (jsToLower "Jabalpur Airport")) "airport".toList = true := by
      decide
    simp only [estimateFare, h, if_true, if_pos rfl]
    norm_num [jsRound]

/-- C6: cancelling sets the matching booking's status to cancelled, clears
driverName, driverPhone and assignedVehicle, forces driverStatus to
offline, and cancelling twice yields exactly the store of cancelling
once. -/
theorem handleCancelBooking_spec (s : Store) (cn : String) :
    (∀ b ∈ (handleCancelBooking s cn).bookings, b.confirmationNumber = cn →
      b.bookingStatus = BookingStatus.cancelled ∧ b.driverName = none ∧
      b.driverPhone = none ∧ b.assignedVehicle = none ∧
      b.driverStatus = some TripStatus.offline) ∧
    handleCancelBooking (handleCancelBooking s cn) cn = handleCancelBooking s cn := by
  constructor
  · intro b hb hcn
    obtain ⟨a, -, rfl⟩ := updateBooking_mem cn cancelFields s.bookings b hb
    by_cases h : a.confirmationNumber = cn
    · simp [h, cancelFields]
    · rw [if_neg h] at hcn
      exact absurd hcn h
  · rw [handleCancelBooking, handleCancelBooking]
    simp only []
    congr 1
    rw [updateBooking, updateBooking, List.map_map]
    apply List.map_congr_left
    intro a _
    by_cases h : a.confirmationNumber = cn
    · simp only [Function.comp_apply, if_pos h, cancelFields]
    · simp only [Function.comp_apply, if_neg h]

/-- Witness for C6 at a concrete store and booking. -/
theorem handleCancelBooking_spec_witness :
    (let b : Booking := { exBooking1 with
        bookingStatus := BookingStatus.cancelled, driverName := none,
        driverPhone := none, assignedVehicle := none,
        driverStatus := some TripStatus.offline };
      b.bookingStatus = BookingStatus.cancelled ∧ b.driverName = none ∧
      b.driverPhone = none ∧ b.assignedVehicle = none ∧
      b.driverStatus = some TripStatus.offline) ∧
    handleCancelBooking (handleCancelBooking exStore "CONF01") "CONF01" =
      handleCancelBooking exStore "CONF01" :=
  ⟨(handleCancelBooking_spec exStore "CONF01").1 _ (by decide) (by decide),
   (handleCancelBooking_spec exStore "CONF01").2⟩

/-- C3 counterexample: on a booking already paid with paymentId
"pay_OLD", `markPaid` with "pay_NEW" is not a no-op; it overwrites the
recorded paymentId. -/
theorem markPaid_overwrite_counterexample :
    exPaidBooking.paymentStatus = PaymentStatus.paid ∧
    exPaidBooking.paymentId = some "pay_OLD" ∧
    markPaid exStorePaid "CONFPD" "pay_NEW" ≠ exStorePaid ∧
    (markPaid exStorePaid "CONFPD" "pay_NEW").bookings =
      [{ exPaidBooking with paymentStatus := PaymentStatus.paid,
                            paymentId := some "pay_NEW" }] := by
  refine ⟨by decide, by decide, by decide, by decide⟩

/-- C3 amended: `markPaid` is unconditional; it marks the matching booking
paid and overwrites any previously recorded paymentId with the new one,
even when the booking is already paid (double payment is prevented only by
the UI hiding the pay button once paid). -/
theorem markPaid_always_overwrites (s : Store) (cn pid : String) :
    ∀ b ∈ (markPaid s cn pid).bookings, b.confirmationNumber = cn →
      b.paymentStatus = PaymentStatus.paid ∧ b.paymentId = some pid := by
  intro b hb hcn
  obtain ⟨a, -, rfl⟩ := updateBooking_mem cn (updatePaymentStatus pid) s.bookings b hb
  by_cases h : a.confirmationNumber = cn
  · simp [h, updatePaymentStatus]
  · rw [if_neg h] at hcn
    exact absurd hcn h

/-- Witness for the amended C3 on the already-paid store. -/
theorem markPaid_always_overwrites_witness :
    ({ exPaidBooking with paymentStatus := PaymentStatus.paid,
                          paymentId := some "pay_NEW" } : Booking).paymentStatus =
      PaymentStatus.paid ∧
    ({ exPaidBooking with paymentStatus := PaymentStatus.paid,
                          paymentId := some "pay_NEW" } : Booking).paymentId =
      some "pay_NEW" :=
  markPaid_always_overwrites exStorePaid "CONFPD" "pay_NEW" _ (by decide) (by decide)

/-- C2: `assign` is all-or-nothing.  On any rejection the store is exactly
the store before the call; on success exactly the five assignment fields
of the matching booking are written. -/
theorem handleSave_all_or_nothing (parse : String → Option ℤ) (s : Store)
    (booking : Booking) (dn pl : String) :
    ((handleSave parse s booking dn pl).2.isSome →
      (handleSave parse s booking dn pl).1 = s) ∧
    ((handleSave parse s booking dn pl).2 = none →
      (handleSave parse s booking dn pl).1.drivers = s.drivers ∧
      (handleSave parse s booking dn pl).1.vehicleTypes = s.vehicleTypes ∧
      (handleSave parse s booking dn pl).1.bookings =
        updateBooking booking.confirmationNumber
          (fun b =>
            { b with driverName := some dn,
                     driverPhone := (match s.drivers.find? (fun d => decide (d.name = dn)) with
                                     | some d => jsStrOrNone d.phone
                                     | none => none),
                     assignedVehicle := lookupVehicle s.vehicleTypes pl,
                     driverStatus := some
                       (match s.drivers.find? (fun d => decide (d.name = dn)) with
                        | some d => d.status.toTripStatus
                        | none => TripStatus.offline),
                     bookingStatus := BookingStatus.assigned })
          s.bookings) := by
  rcases handleSave_rejects_or_commits parse s booking dn pl with ⟨hs, he⟩ | ⟨he, -, -⟩
  · refine ⟨fun _ => he, fun hn => ?_⟩
    rw [hn] at hs
    exact absurd hs (by simp)
  · constructor
    · intro hs
      rw [he] at hs
      exact absurd hs (by simp)
    · intro _
      rw [he]
      exact ⟨rfl, rfl, rfl⟩

/-- Witness for C2: a rejected call (offline driver) leaves the concrete
store unchanged. -/
theorem handleSave_all_or_nothing_witness :
    (handleSave parseTable exStore exBooking1 "Sunita Sharma" "MP20TA7001").2.isSome ∧
    (handleSave parseTable exStore exBooking1 "Sunita Sharma" "MP20TA7001").1 = exStore :=
  ⟨by decide,
   (handleSave_all_or_nothing parseTable exStore exBooking1 "Sunita Sharma" "MP20TA7001").1
     (by decide)⟩

/-- C7: naming a driver whose record is offline rejects the assign call
regardless of schedule, and the store (hence the target booking) is
unchanged. -/
theorem offline_driver_assign_rejected (parse : String → Option ℤ) (s : Store)
    (booking : Booking) (dn pl : String) (d : Driver)
    (hfind : s.drivers.find? (fun d2 => decide (d2.name = dn)) = some d)
    (hoff : d.status = DriverStatus.offline) :
    (handleSave parse s booking dn pl).1 = s ∧
    (handleSave parse s booking dn pl).2.isSome := by
  by_cases h1 : dn = "" ∨ pl = ""
  · rw [handleSave, if_pos h1]
    exact ⟨rfl, rfl⟩
  · have h2 : offlineSelected s dn = true := by
      rw [offlineSelected, hfind]
      simp [hoff]
    rw [handleSave, if_neg h1, if_pos h2]
    exact ⟨rfl, rfl⟩

/-- Witness for C7: assigning the offline driver Sunita Sharma is rejected
and leaves the concrete store unchanged. -/
theorem offline_driver_assign_rejected_witness :
    (handleSave parseTable exStore exBooking1 "Sunita Sharma" "MP20TA7002").1 = exStore ∧
    (handleSave parseTable exStore exBooking1 "Sunita Sharma" "MP20TA7002").2.isSome :=
  offline_driver_assign_rejected parseTable exStore exBooking1 "Sunita Sharma" "MP20TA7002"
    exDriverSunita (by decide) (by decide)

/-- C10: `assign` and `cancel` touch at most the booking whose
confirmation number matches: the booking list keeps its length, every
entry with a different confirmation number is unchanged in place, and when
no entry matches, the whole booking list is unchanged. -/
theorem assign_cancel_frame (parse : String → Option ℤ) (s : Store)
    (booking : Booking) (dn pl cn : String) :
    ((∀ (i : ℕ) (b : Booking), s.bookings[i]? = some b →
        b.confirmationNumber ≠ booking.confirmationNumber →
        (handleSave parse s booking dn pl).1.bookings[i]? = some b) ∧
     ((∀ b ∈ s.bookings, b.confirmationNumber ≠ booking.confirmationNumber) →
        (handleSave parse s booking dn pl).1.bookings = s.bookings)) ∧
    ((∀ (i : ℕ) (b : Booking), s.bookings[i]? = some b →
        b.confirmationNumber ≠ cn →
        (handleCancelBooking s cn).bookings[i]? = some b) ∧
     ((∀ b ∈ s.bookings, b.confirmationNumber ≠ cn) →
        (handleCancelBooking s cn).bookings = s.bookings)) := by
  have hcb : (handleCancelBooking s cn).bookings = updateBooking cn cancelFields s.bookings :=
    rfl
  constructor
  · rcases handleSave_rejects_or_commits parse s booking dn pl with ⟨-, he⟩ | ⟨he, -, -⟩
    · rw [he]
      exact ⟨fun i b hib hne => hib, fun _ => rfl⟩
    · rw [he]
      have hab : (handleAssignDriver s booking.confirmationNumber dn pl).bookings =
          updateBooking booking.confirmationNumber
            (assignFields dn (s.drivers.find? (fun d => decide (d.name = dn)))
              (lookupVehicle s.vehicleTypes pl)) s.bookings := rfl
      rw [hab]
      refine ⟨fun i b hib hne => ?_, fun hall => updateBooking_id _ _ _ hall⟩
      rw [updateBooking_getElem, hib]
      simp [if_neg hne]
  · rw [hcb]
    refine ⟨fun i b hib hne => ?_, fun hall => updateBooking_id _ _ _ hall⟩
    rw [updateBooking_getElem, hib]
    simp [if_neg hne]

/-- Witness for C10: a successful assign on CONF01 leaves CONF02 (index 1)
unchanged, and cancel with an unknown confirmation number leaves the whole
list unchanged. -/
theorem assign_cancel_frame_witness :
    (handleSave parseTable exStore exBooking1 "Ravi Kumar" "MP20TA7001").1.bookings[1]? =
      some exBooking2 ∧
    (handleCancelBooking exStore "NOSUCH").bookings = exStore.bookings :=
  ⟨(assign_cancel_frame parseTable exStore exBooking1 "Ravi Kumar" "MP20TA7001"
      "NOSUCH").1.1 1 exBooking2 (by decide) (by decide),
   (assign_cancel_frame parseTable exStore exBooking1 "Ravi Kumar" "MP20TA7001"
      "NOSUCH").2.2 (by decide)⟩

end TransportService

namespace TransportService

/-- C8 counterexample: the assign call with the unresolvable driver name
"Ghost" and the unresolvable plate "ZZ9999" is not rejected: it succeeds
and marks the booking assigned with a null driverPhone and a null
assignedVehicle. -/
theorem handleSave_unknown_reference_counterexample :
    exStore.drivers.find? (fun d => decide (d.name = "Ghost")) = none ∧
    lookupVehicle exStore.vehicleTypes "ZZ9999" = none ∧
    (handleSave parseTable exStore exBooking1 "Ghost" "ZZ9999").2 = none ∧
    (handleSave parseTable exStore exBooking1 "Ghost" "ZZ9999").1.bookings[0]? =
      some { exBooking1 with driverName := some "Ghost",
                             driverPhone := none,
                             assignedVehicle := none,
                             driverStatus := some TripStatus.offline,
                             bookingStatus := BookingStatus.assigned } ∧
    (handleSave parseTable exStore exBooking1 "Ghost" "ZZ9999").1 ≠ exStore :=
  ⟨by decide, by decide, by decide, by decide, by decide⟩

/-- C8 amended: only empty selections are rejected as validation errors; a
non-empty driver name or vehicle plate that resolves to no record passes
validation, and (when the overlap checks pass) the call commits, marking
the booking assigned with the unresolved driver name, a null driverPhone,
a null assignedVehicle and driverStatus forced to offline. -/
theorem handleSave_unknown_reference_commits (parse : String → Option ℤ) (s : Store)
    (booking : Booking) (dn pl : String)
    (hdn : dn ≠ "") (hpl : pl ≠ "")
    (hdriver : s.drivers.find? (fun d => decide (d.name = dn)) = none)
    (hveh : lookupVehicle s.vehicleTypes pl = none)
    (hnoD : driverIsBooked parse s booking dn = false)
    (hnoV : vehicleIsBooked parse s booking pl = false) :
    (handleSave parse s booking dn pl).2 = none ∧
    ∀ b ∈ (handleSave parse s booking dn pl).1.bookings,
      b.confirmationNumber = booking.confirmationNumber →
      b.driverName = some dn ∧ b.driverPhone = none ∧ b.assignedVehicle = none ∧
      b.driverStatus = some TripStatus.offline ∧
      b.bookingStatus = BookingStatus.assigned := by
  have h1 : ¬(dn = "" ∨ pl = "") := fun h => h.elim hdn hpl
  have h2 : ¬ offlineSelected s dn = true := by
    rw [offlineSelected, hdriver]
    simp
  have h3 : ¬ driverIsBooked parse s booking dn = true := by
    rw [hnoD]
    simp
  have h4 : ¬ vehicleIsBooked parse s booking pl = true := by
    rw [hnoV]
    simp
  rw [handleSave, if_neg h1, if_neg h2, if_neg h3, if_neg h4]
  refine ⟨rfl, ?_⟩
  intro b hb hcn
  have hb2 : b ∈ updateBooking booking.confirmationNumber
      (assignFields dn (s.drivers.find? (fun d => decide (d.name = dn)))
        (lookupVehicle s.vehicleTypes pl)) s.bookings := hb
  obtain ⟨a, -, rfl⟩ := updateBooking_mem _ _ _ b hb2
  by_cases h : a.confirmationNumber = booking.confirmationNumber
  · simp [h, assignFields, hdriver, hveh]
  · rw [if_neg h] at hcn
    exact absurd hcn h

/-- Witness for the amended C8 at the concrete unknown references. -/
theorem handleSave_unknown_reference_commits_witness :
    (handleSave parseTable exStore exBooking1 "Ghost" "ZZ9999").2 = none ∧
    ({ exBooking1 with driverName := some "Ghost",
                       driverPhone := none,
                       assignedVehicle := none,
                       driverStatus := some TripStatus.offline,
                       bookingStatus := BookingStatus.assigned } : Booking).driverName =
      some "Ghost" :=
  ⟨(handleSave_unknown_reference_commits parseTable exStore exBooking1 "Ghost" "ZZ9999"
      (by decide) (by decide) (by decide) (by decide) (by decide) (by decide)).1,
   ((handleSave_unknown_reference_commits parseTable exStore exBooking1 "Ghost" "ZZ9999"
      (by decide) (by decide) (by decide) (by decide) (by decide) (by decide)).2
      _ (by decide) (by decide)).1⟩

end TransportService

namespace TransportService

theorem mem_exists_getElem {α : Type} (l : List α) (a : α) (h : a ∈ l) :
    ∃ i : ℕ, l[i]? = some a := by
  obtain ⟨n, hn⟩ := List.mem_iff_get.mp h
  exact ⟨n, by simp [List.getElem?_eq_getElem, ← List.get_eq_getElem, hn]⟩

theorem assignFields_confirmationNumber (dn : String) (dr : Option Driver)
    (v : Option Vehicle) (b : Booking) :
    (assignFields dn dr v b).confirmationNumber = b.confirmationNumber := rfl

theorem isTimeOverlapping_assignFields_left (parse : String → Option ℤ) (dn : String)
    (dr : Option Driver) (v : Option Vehicle) (A B : Booking) :
    isTimeOverlapping parse (assignFields dn dr v A) B = isTimeOverlapping parse A B := rfl

theorem isTimeOverlapping_assignFields_right (parse : String → Option ℤ) (dn : String)
    (dr : Option Driver) (v : Option Vehicle) (A B : Booking) :
    isTimeOverlapping parse A (assignFields dn dr v B) = isTimeOverlapping parse A B := rfl

theorem updateBooking_map_confirmation (cn : String) (upd : Booking → Booking)
    (l : List Booking)
    (hupd : ∀ b, (upd b).confirmationNumber = b.confirmationNumber) :
    (updateBooking cn upd l).map Booking.confirmationNumber =
      l.map Booking.confirmationNumber := by
  rw [updateBooking, List.map_map]
  apply List.map_congr_left
  intro a _
  by_cases h : a.confirmationNumber = cn
  · simp [Function.comp, h, hupd]
  · simp [Function.comp, h]

theorem lookupVehicle_plate (vt : List (String × VehicleTypeDetails)) (pl : String)
    (v : Vehicle) (h : lookupVehicle vt pl = some v) : v.plate = pl := by
  rw [lookupVehicle] at h
  split at h
  · have h2 := List.find?_some h
    exact of_decide_eq_true h2
  · cases h

theorem updateBooking_getElem_cases (cn : String) (upd : Booking → Booking)
    (l : List Booking) (i : ℕ) (A2 : Booking)
    (h : (updateBooking cn upd l)[i]? = some A2) :
    ∃ A, l[i]? = some A ∧
      ((A.confirmationNumber = cn ∧ A2 = upd A) ∨
       (A.confirmationNumber ≠ cn ∧ A2 = A)) := by
  rw [updateBooking_getElem] at h
  cases hAo : l[i]? with
  | none =>
    rw [hAo] at h
    exact absurd h (by simp)
  | some A =>
    rw [hAo, Option.map_some'] at h
    have h2 := Option.some.inj h
    by_cases hc : A.confirmationNumber = cn
    · exact ⟨A, rfl, Or.inl ⟨hc, by rw [← h2, if_pos hc]⟩⟩
    · exact ⟨A, rfl, Or.inr ⟨hc, by rw [← h2, if_neg hc]⟩⟩

theorem unique_confirmation_ne (s : Store) (huniq : UniqueConfirmations s)
    (i j : ℕ) (hij : i ≠ j) (A B : Booking)
    (hA : s.bookings[i]? = some A) (hB : s.bookings[j]? = some B) :
    A.confirmationNumber ≠ B.confirmationNumber := by
  intro he
  obtain ⟨hi, hiA⟩ := List.getElem?_eq_some.mp hA
  obtain ⟨hj, hjB⟩ := List.getElem?_eq_some.mp hB
  apply hij
  have hinj := List.nodup_iff_injective_getElem.mp huniq
  have hi2 : i < (s.bookings.map Booking.confirmationNumber).length := by simpa using hi
  have hj2 : j < (s.bookings.map Booking.confirmationNumber).length := by simpa using hj
  have heq : (s.bookings.map Booking.confirmationNumber)[i] =
      (s.bookings.map Booking.confirmationNumber)[j] := by
    rw [List.getElem_map, List.getElem_map, hiA, hjB]
    exact he
  have h3 : (⟨i, hi2⟩ : Fin (s.bookings.map Booking.confirmationNumber).length) =
      ⟨j, hj2⟩ := hinj heq
  simpa using congrArg Fin.val h3

end TransportService

namespace TransportService

theorem handleSave_preserves_inv (parse : String → Option ℤ) (s s2 : Store)
    (bk : Booking) (dn pl : String)
    (hmem : bk ∈ s.bookings)
    (huniq : UniqueConfirmations s)
    (hinv : NoDoubleBooking parse s)
    (heq : handleSave parse s bk dn pl = (s2, none)) :
    UniqueConfirmations s2 ∧ NoDoubleBooking parse s2 := by
  rcases handleSave_rejects_or_commits parse s bk dn pl with ⟨hs, -⟩ | ⟨he, hD, hV⟩
  · rw [heq] at hs
    exact absurd hs (by simp)
  · rw [heq] at he
    have he1 : s2 = handleAssignDriver s bk.confirmationNumber dn pl :=
      congrArg Prod.fst he
    subst he1
    have hdrv := (driverIsBooked_eq_false_iff parse s bk dn).mp hD
    have hveh := (vehicleIsBooked_eq_false_iff parse s bk pl).mp hV
    obtain ⟨k, hk⟩ := mem_exists_getElem s.bookings bk hmem
    have hidx : ∀ (i : ℕ) (A : Booking), s.bookings[i]? = some A →
        A.confirmationNumber = bk.confirmationNumber → i = k ∧ A = bk := by
      intro i A hA hcn
      have hik : i = k := by
        by_contra hik
        exact unique_confirmation_ne s huniq i k hik A bk hA hk hcn
      subst hik
      rw [hA] at hk
      exact ⟨rfl, Option.some.inj hk⟩
    have hbks : (handleAssignDriver s bk.confirmationNumber dn pl).bookings =
        updateBooking bk.confirmationNumber
          (assignFields dn (s.drivers.find? (fun d => decide (d.name = dn)))
            (lookupVehicle s.vehicleTypes pl)) s.bookings := rfl
    constructor
    · show ((handleAssignDriver s bk.confirmationNumber dn pl).bookings.map
        Booking.confirmationNumber).Nodup
      have hmap : (updateBooking bk.confirmationNumber
          (assignFields dn (s.drivers.find? (fun d => decide (d.name = dn)))
            (lookupVehicle s.vehicleTypes pl)) s.bookings).map Booking.confirmationNumber =
          s.bookings.map Booking.confirmationNumber :=
        updateBooking_map_confirmation _ _ _
          (fun b => assignFields_confirmationNumber dn _ _ b)
      rw [hbks, hmap]
      exact huniq
    · intro i j A2 B2 hij hA2 hB2 hcA hcB hshare
      rw [hbks] at hA2 hB2
      obtain ⟨A, hAo, hAcase⟩ := updateBooking_getElem_cases _ _ _ _ _ hA2
      obtain ⟨B, hBo, hBcase⟩ := updateBooking_getElem_cases _ _ _ _ _ hB2
      have hAmem : A ∈ s.bookings := by
        obtain ⟨hi2, heq2⟩ := List.getElem?_eq_some.mp hAo
        exact heq2 ▸ List.getElem_mem hi2
      have hBmem : B ∈ s.bookings := by
        obtain ⟨hi2, heq2⟩ := List.getElem?_eq_some.mp hBo
        exact heq2 ▸ List.getElem_mem hi2
      rcases hAcase with ⟨hAhit, hA2eq⟩ | ⟨hAmiss, hA2eq⟩ <;>
        rcases hBcase with ⟨hBhit, hB2eq⟩ | ⟨hBmiss, hB2eq⟩
      · obtain ⟨hik, -⟩ := hidx i A hAo hAhit
        obtain ⟨hjk, -⟩ := hidx j B hBo hBhit
        exact absurd (hik.trans hjk.symm) hij
      · obtain ⟨-, hAbk⟩ := hidx i A hAo hAhit
        rw [hA2eq, hAbk] at hshare ⊢
        rw [hB2eq] at hshare hcB ⊢
        rw [isTimeOverlapping_assignFields_left]
        rcases hshare with ⟨d, hd1, hd2⟩ | ⟨va, vb, hva, hvb, hplate⟩
        · have hd1x : some dn = some d := hd1
          have hdd := Option.some.inj hd1x
          exact hdrv B hBmem hBmiss (by rw [← hdd] at hd2; exact hd2) hcB
        · have hva2 : lookupVehicle s.vehicleTypes pl = some va := hva
          have hvap : va.plate = pl := lookupVehicle_plate _ _ _ hva2
          exact hveh B hBmem hBmiss ⟨vb, hvb, by rw [← hplate]; exact hvap⟩ hcB
      · obtain ⟨-, hBbk⟩ := hidx j B hBo hBhit
        rw [hB2eq, hBbk] at hshare ⊢
        rw [hA2eq] at hshare hcA ⊢
        rw [isTimeOverlapping_assignFields_right, isTimeOverlapping_symm]
        rcases hshare with ⟨d, hd1, hd2⟩ | ⟨va, vb, hva, hvb, hplate⟩
        · have hd2x : some dn = some d := hd2
          have hdd := Option.some.inj hd2x
          exact hdrv A hAmem hAmiss (by rw [← hdd] at hd1; exact hd1) hcA
        · have hvb2 : lookupVehicle s.vehicleTypes pl = some vb := hvb
          have hvbp : vb.plate = pl := lookupVehicle_plate _ _ _ hvb2
          exact hveh A hAmem hAmiss ⟨va, hva, by rw [hplate]; exact hvbp⟩ hcA
      · rw [hA2eq] at hshare hcA ⊢
        rw [hB2eq] at hshare hcB ⊢
        exact hinv i j A B hij hAo hBo hcA hcB hshare

end TransportService

namespace TransportService

theorem runAssigns_preserves_inv (parse : String → Option ℤ)
    (calls : List (String × String × String)) :
    ∀ (s0 s1 : Store), UniqueConfirmations s0 → NoDoubleBooking parse s0 →
      runAssigns parse s0 calls = some s1 →
      UniqueConfirmations s1 ∧ NoDoubleBooking parse s1 := by
  induction calls with
  | nil =>
    intro s0 s1 h1 h2 hrun
    rw [runAssigns] at hrun
    cases hrun
    exact ⟨h1, h2⟩
  | cons c rest ih =>
    intro s0 s1 h1 h2 hrun
    obtain ⟨cn, dn, pl⟩ := c
    rw [runAssigns] at hrun
    split at hrun
    · exact absurd hrun (by simp)
    · rename_i bk hfind
      split at hrun
      · rename_i s2 heq2
        have hmem := List.mem_of_find?_eq_some hfind
        obtain ⟨h1x, h2x⟩ := handleSave_preserves_inv parse s0 s2 bk dn pl hmem h1 h2 heq2
        exact ih s2 s1 h1x h2x hrun
      · exact absurd hrun (by simp)

end TransportService

namespace TransportService

/-- C1: after any successful sequence of assign calls starting from a
store whose bookings are all unassigned (and whose confirmation numbers
are unique, the data-model invariant), any two bookings at distinct
positions that are both non-cancelled and share a driver name or an
assigned vehicle plate have non-overlapping trip windows: the overlap
predicate returns false for the pair. -/
theorem assign_sequence_no_double_booking (parse : String → Option ℤ)
    (s0 : Store) (calls : List (String × String × String)) (s1 : Store)
    (huniq : UniqueConfirmations s0)
    (hinit : ∀ b ∈ s0.bookings, Unassigned b)
    (hrun : runAssigns parse s0 calls = some s1) :
    NoDoubleBooking parse s1 := by
  have base : NoDoubleBooking parse s0 := by
    intro i j A B hij hA hB hcA hcB hshare
    exfalso
    have hAmem : A ∈ s0.bookings := by
      obtain ⟨hi, hiA⟩ := List.getElem?_eq_some.mp hA
      exact hiA ▸ List.getElem_mem hi
    rcases hshare with ⟨d, hd1, -⟩ | ⟨va, vb, hva, -, -⟩
    · rw [(hinit A hAmem).1] at hd1
      exact absurd hd1 (by simp)
    · rw [(hinit A hAmem).2] at hva
      exact absurd hva (by simp)
  exact (runAssigns_preserves_inv parse calls s0 s1 huniq base hrun).2

/-- Witness for C1: assigning Ravi Kumar and MP20TA7001 to the two
non-overlapping bookings CONF01 and CONF03 succeeds, and the resulting
concrete store satisfies the invariant. -/
theorem assign_sequence_no_double_booking_witness :
    UniqueConfirmations exStore ∧
    (∀ b ∈ exStore.bookings, Unassigned b) ∧
    runAssigns parseTable exStore
        [("CONF01", "Ravi Kumar", "MP20TA7001"), ("CONF03", "Ravi Kumar", "MP20TA7001")] =
      some exStoreAssigned ∧
    NoDoubleBooking parseTable exStoreAssigned :=
  ⟨by decide, by decide, by decide,
   assign_sequence_no_double_booking parseTable exStore
     [("CONF01", "Ravi Kumar", "MP20TA7001"), ("CONF03", "Ravi Kumar", "MP20TA7001")]
     exStoreAssigned (by decide) (by decide) (by decide)⟩

end TransportService
